import Mathlib

/-!
# Verification of the fleet installer service orchestration

Shallow embedding of `pkg/fleet/installer/service/datadog_agent.go`:
the unit registry, `SetupAgent`, `RemoveAgent`, the experiment
controller and the `setInstallerAgentGroup` precondition check.

External collaborators (`loadUnit`, `enableUnit`, `startUnit`,
`stopUnit`, `disableUnit`, `removeUnit`, `systemdReload`,
`createAgentSymlink`, `rmAgentSymlink`, `executeHelperCommand`,
`installinfo.WriteInstallInfo`, `installinfo.RmInstallInfo`, and the
`id -Gn dd-installer` process invocation) are modelled by an
environment `Env` that fixes the result of each call.  Each embedded
function returns the ordered trace of external calls it makes,
together with its returned error (`none` = Go `nil`).
-/

namespace DatadogAgentService

/-- Unit name constants, from the `const` block of the source. -/
def agentUnit : String := "datadog-agent.service"

def traceAgentUnit : String := "datadog-agent-trace.service"

def processAgentUnit : String := "datadog-agent-process.service"

def systemProbeUnit : String := "datadog-agent-sysprobe.service"

def securityAgentUnit : String := "datadog-agent-security.service"

def agentExp : String := "datadog-agent-exp.service"

def traceAgentExp : String := "datadog-agent-trace-exp.service"

def processAgentExp : String := "datadog-agent-process-exp.service"

def systemProbeExp : String := "datadog-agent-sysprobe-exp.service"

def securityAgentExp : String := "datadog-agent-security-exp.service"

/-- The `stableUnits` registry slice, in declaration order. -/
def stableUnits : List String :=
  [agentUnit, traceAgentUnit, processAgentUnit, systemProbeUnit, securityAgentUnit]

/-- The `experimentalUnits` registry slice, in declaration order. -/
def experimentalUnits : List String :=
  [agentExp, traceAgentExp, processAgentExp, systemProbeExp, securityAgentExp]

/-- Modelled from the spec: the constant command passed to
`executeHelperCommand`; the `addInstallerToAgentGroup` constant itself is
declared outside the sources under study.  Its exact text is irrelevant to
every claim: only that it is one fixed command. -/
def addInstallerToAgentGroup : String := "add-installer-to-agent-group"

/-- One external call made by the orchestration code, with its arguments. -/
inductive Event where
  | loadUnit (u : String)
  | enableUnit (u : String)
  | startUnit (u : String)
  | stopUnit (u : String)
  | disableUnit (u : String)
  | removeUnit (u : String)
  | systemdReload
  | createAgentSymlink
  | rmAgentSymlink
  | writeInstallInfo (pkg upd : String)
  | rmInstallInfo
  | idQuery
  | helperCommand (c : String)
  deriving DecidableEq, Repr

/-- The environment: the outcome of every external call.  `none` means the
call succeeds (Go `nil` error); `some e` means it fails with error text `e`.
`idQueryRes` is the result of `exec.Command("id", "-Gn", "dd-installer").Output()`:
either an error or the output text. -/
structure Env where
  loadUnitRes : String → Option String
  enableUnitRes : String → Option String
  startUnitRes : String → Option String
  stopUnitRes : String → Option String
  disableUnitRes : String → Option String
  removeUnitRes : String → Option String
  systemdReloadRes : Option String
  createAgentSymlinkRes : Option String
  rmAgentSymlinkRes : Option String
  writeInstallInfoRes : String → String → Option String
  helperCommandRes : String → Option String
  idQueryRes : Except String String

/-- The result of running a piece of orchestration code: the ordered trace of
external calls it made, and the error it returned (`none` = Go `nil`). -/
abbrev Run := List Event × Option String

/-- Sequencing with Go-style fail-fast: if `a` returned an error, the
remaining code `b` is not run and `a`'s error is returned. -/
def andThen (a : Run) (b : Unit → Run) : Run :=
  match a with
  | (tr, none) => ((tr ++ (b ()).1 : List Event), (b ()).2)
  | (tr, some e) => (tr, some e)

/-- A Go `for _, unit := range units` loop whose body `f` returns on the
first error. -/
def forEachUnit (f : String → Run) : List String → Run
  | [] => ([], none)
  | u :: us => andThen (f u) (fun _ => forEachUnit f us)

/-- `a == b && ...` prefix test on character lists. -/
def listIsPrefix : List Char → List Char → Bool
  | [], _ => true
  | _ :: _, [] => false
  | a :: as, b :: bs => a == b && listIsPrefix as bs

/-- Substring occurrence on character lists (the pattern occurs at some
position of `s`). -/
def listContainsSub (s pat : List Char) : Bool :=
  listIsPrefix pat s ||
    match s with
    | [] => false
    | _ :: rest => listContainsSub rest pat

/-- `strings.Contains(s, pat)`: `pat` occurs as a substring of `s`. -/
def strContains (s pat : String) : Bool :=
  listContainsSub s.toList pat.toList

/-- `setInstallerAgentGroup`: query the groups of `dd-installer`; succeed
with no further call if the output contains `dd-agent`, otherwise run the
helper command and return its error unmodified. -/
def setInstallerAgentGroup (env : Env) : Run :=
  match env.idQueryRes with
  | .error e => ([Event.idQuery], some e)
  | .ok out =>
    if strContains out "dd-agent" then
      ([Event.idQuery], none)
    else
      ([Event.idQuery, Event.helperCommand addInstallerToAgentGroup],
        env.helperCommandRes addInstallerToAgentGroup)

/-- One `loadUnit(ctx, unit)` call. -/
def loadUnitCall (env : Env) (u : String) : Run :=
  ([Event.loadUnit u], env.loadUnitRes u)

/-- One `enableUnit(ctx, unit)` call. -/
def enableUnitCall (env : Env) (u : String) : Run :=
  ([Event.enableUnit u], env.enableUnitRes u)

/-- One `startUnit(ctx, unit)` call. -/
def startUnitCall (env : Env) (u : String) : Run :=
  ([Event.startUnit u], env.startUnitRes u)

/-- One `stopUnit` call as made by `RemoveAgent`, whose error is wrapped as
`fmt.Errorf("Failed to stop %s: %s", unit, err)`. -/
def stopUnitWrapped (env : Env) (u : String) : Run :=
  ([Event.stopUnit u], (env.stopUnitRes u).map (fun e => s!"Failed to stop {u}: {e}"))

/-- The `disableUnit` then `removeUnit` pair `RemoveAgent` runs per unit,
each error wrapped as in the source. -/
def purgeUnitCall (env : Env) (u : String) : Run :=
  andThen
    ([Event.disableUnit u],
      (env.disableUnitRes u).map (fun e => s!"Failed to disable {u}: {e}"))
    (fun _ =>
      ([Event.removeUnit u],
        (env.removeUnitRes u).map (fun e => s!"Failed to remove {u}: {e}")))

/-- The part of `RemoveAgent` after its first loop: stop every stable unit,
disable+remove every experimental unit, disable+remove every stable unit,
remove the agent symlink, then remove the install info (no error path). -/
def removeAgentTail (env : Env) : Run :=
  andThen (forEachUnit (stopUnitWrapped env) stableUnits) fun _ =>
  andThen (forEachUnit (purgeUnitCall env) experimentalUnits) fun _ =>
  andThen (forEachUnit (purgeUnitCall env) stableUnits) fun _ =>
  andThen
    ([Event.rmAgentSymlink],
      (env.rmAgentSymlinkRes).map (fun e => s!"Failed to remove agent symlink: {e}"))
    fun _ => ([Event.rmInstallInfo], none)

/-- `RemoveAgent`: stop every experimental unit first, then run the rest of
the teardown (`removeAgentTail`). -/
def RemoveAgent (env : Env) : Run :=
  andThen (forEachUnit (stopUnitWrapped env) experimentalUnits) fun _ =>
    removeAgentTail env

/-- The forward body of `SetupAgent` (everything before the deferred
rollback): precondition check, load stable units, load experimental units,
reload systemd, enable stable units, start stable units, create the agent
symlink, write the install info. -/
def setupForward (env : Env) : Run :=
  andThen (setInstallerAgentGroup env) fun _ =>
  andThen (forEachUnit (loadUnitCall env) stableUnits) fun _ =>
  andThen (forEachUnit (loadUnitCall env) experimentalUnits) fun _ =>
  andThen ([Event.systemdReload], env.systemdReloadRes) fun _ =>
  andThen (forEachUnit (enableUnitCall env) stableUnits) fun _ =>
  andThen (forEachUnit (startUnitCall env) stableUnits) fun _ =>
  andThen ([Event.createAgentSymlink], env.createAgentSymlinkRes) fun _ =>
  ([Event.writeInstallInfo "installer_package" "manual_update"],
    env.writeInstallInfoRes "installer_package" "manual_update")

/-- `SetupAgent`: runs the forward body; the deferred function then checks
the named return `err` and, when it is non-nil, executes
`err = RemoveAgent(ctx)` — the value returned to the caller is whatever
`RemoveAgent` returned (the rollback's own failure is additionally logged,
which has no observable effect modelled here). -/
def SetupAgent (env : Env) : Run :=
  match setupForward env with
  | (tr, none) => (tr, none)
  | (tr, some _) => ((tr ++ (RemoveAgent env).1 : List Event), (RemoveAgent env).2)

/-- `StartAgentExperiment`: `return startUnit(ctx, agentExp)`. -/
def StartAgentExperiment (env : Env) : Run :=
  ([Event.startUnit agentExp], env.startUnitRes agentExp)

/-- `StopAgentExperiment`: `return startUnit(ctx, agentUnit)`. -/
def StopAgentExperiment (env : Env) : Run :=
  ([Event.startUnit agentUnit], env.startUnitRes agentUnit)

/-! ## Concrete environments used as witnesses and counterexamples -/

/-- Every external call succeeds; the group query reports `dd-agent`
membership. -/
def envAllOk : Env where
  loadUnitRes := fun _ => none
  enableUnitRes := fun _ => none
  startUnitRes := fun _ => none
  stopUnitRes := fun _ => none
  disableUnitRes := fun _ => none
  removeUnitRes := fun _ => none
  systemdReloadRes := none
  createAgentSymlinkRes := none
  rmAgentSymlinkRes := none
  writeInstallInfoRes := fun _ _ => none
  helperCommandRes := fun _ => none
  idQueryRes := .ok "dd-installer dd-agent root"

/-- The group query output lacks `dd-agent` and the helper command fails, so
setup fails at the precondition; during the roll-back the very first
`stopUnit` also fails. -/
def envMaskedRollback : Env :=
  { envAllOk with
    idQueryRes := .ok "dd-installer"
    helperCommandRes := fun _ => some "helper failed"
    stopUnitRes := fun u => if u == agentExp then some "stop failed" else none }

/-- The group query itself errors, so setup fails at the precondition; every
roll-back call succeeds. -/
def envQueryError : Env :=
  { envAllOk with idQueryRes := .error "id: command failed" }

/-- The group query output lacks `dd-agent` and the helper command fails;
every other call succeeds. -/
def envGroupHelperFails : Env :=
  { envAllOk with
    idQueryRes := .ok "dd-installer"
    helperCommandRes := fun _ => some "helper failed" }

/-- `stopUnit` fails on the trace-agent experimental unit; everything else
succeeds. -/
def envStopTraceExpFails : Env :=
  { envAllOk with
    stopUnitRes := fun u => if u == traceAgentExp then some "job canceled" else none }

/-- The group query output contains `dd-agent`. -/
def envGroupPresent : Env :=
  { envAllOk with idQueryRes := .ok "dd-installer dd-agent" }

/-! ## Predicates used to state the claims -/

/-- Every call `RemoveAgent` makes succeeds in `env`. -/
def RemoveAllOk (env : Env) : Prop :=
  (∀ u ∈ experimentalUnits, env.stopUnitRes u = none) ∧
  (∀ u ∈ stableUnits, env.stopUnitRes u = none) ∧
  (∀ u ∈ experimentalUnits, env.disableUnitRes u = none ∧ env.removeUnitRes u = none) ∧
  (∀ u ∈ stableUnits, env.disableUnitRes u = none ∧ env.removeUnitRes u = none) ∧
  env.rmAgentSymlinkRes = none

instance (env : Env) : Decidable (RemoveAllOk env) := by
  unfold RemoveAllOk; infer_instance

/-- The interleaved `disableUnit`/`removeUnit` event sequence of a purge
loop over `us`. -/
def purgeEvents : List String → List Event
  | [] => []
  | u :: us => Event.disableUnit u :: Event.removeUnit u :: purgeEvents us

/-- The full call trace of a completely successful `RemoveAgent` run. -/
def fullRemoveTrace : List Event :=
  experimentalUnits.map Event.stopUnit ++ stableUnits.map Event.stopUnit ++
    purgeEvents experimentalUnits ++ purgeEvents stableUnits ++
    [Event.rmAgentSymlink, Event.rmInstallInfo]

/-- The returned error `e` wraps the offending unit and action of the last
call in the trace `tr`, which is the call that failed in `env` — so the run
stopped at its first failing call and reported it wrapped. -/
def FailsAsWrapped (env : Env) (e : String) (tr : List Event) : Prop :=
  (∃ u e0, tr.getLast? = some (Event.stopUnit u) ∧
    env.stopUnitRes u = some e0 ∧ e = s!"Failed to stop {u}: {e0}") ∨
  (∃ u e0, tr.getLast? = some (Event.disableUnit u) ∧
    env.disableUnitRes u = some e0 ∧ e = s!"Failed to disable {u}: {e0}") ∨
  (∃ u e0, tr.getLast? = some (Event.removeUnit u) ∧
    env.removeUnitRes u = some e0 ∧ e = s!"Failed to remove {u}: {e0}") ∨
  (∃ e0, tr.getLast? = some Event.rmAgentSymlink ∧
    env.rmAgentSymlinkRes = some e0 ∧ e = s!"Failed to remove agent symlink: {e0}")

/-- Whenever the run `r` returned an error, that error wraps the last call
of `r`'s trace as `FailsAsWrapped` describes. -/
def RunWrapOk (env : Env) (r : Run) : Prop :=
  ∀ e, r.2 = some e → r.1 ≠ [] ∧ FailsAsWrapped env e r.1

/-- The agent subcomponents, in the intended dependency order. -/
inductive Subcomponent where
  | main
  | trace
  | process
  | systemProbe
  | security
  deriving DecidableEq, Repr

/-- The subcomponent a unit name belongs to, read off the source's unit-name
constants. -/
def subcomponentOf (u : String) : Option Subcomponent :=
  if u = agentUnit ∨ u = agentExp then some .main
  else if u = traceAgentUnit ∨ u = traceAgentExp then some .trace
  else if u = processAgentUnit ∨ u = processAgentExp then some .process
  else if u = systemProbeUnit ∨ u = systemProbeExp then some .systemProbe
  else if u = securityAgentUnit ∨ u = securityAgentExp then some .security
  else none

/-- `e` is the experimental counterpart of the stable unit name `s`: the
same name with `-exp` inserted before the `.service` extension. -/
def isExpCounterpart (s e : String) : Bool :=
  e == s.dropRight ".service".length ++ "-exp.service"

/-! ## General lemmas about the run combinators -/

-- A loop whose every iteration succeeds with a single event produces the
-- mapped event list and no error.
theorem forEachUnit_allOk (f : String → Run) (g : String → Event) :
    ∀ us : List String, (∀ u ∈ us, f u = ([g u], none)) →
      forEachUnit f us = (us.map g, none) := by
  intro us
  induction us with
  | nil => intro _; rfl
  | cons u us ih =>
    intro h
    have hu : f u = ([g u], none) := h u (by simp)
    have hrest := ih (fun w hw => h w (by simp [hw]))
    simp [forEachUnit, andThen, hu, hrest]

-- Every event of a sequenced run comes from one of its two parts.
theorem mem_andThen {a : Run} {b : Unit → Run} {e : Event}
    (h : e ∈ (andThen a b).1) : e ∈ a.1 ∨ e ∈ (b ()).1 := by
  rcases a with ⟨tr, r⟩
  cases r with
  | none =>
    simp only [andThen] at h
    exact List.mem_append.mp h
  | some err => exact Or.inl h

-- Every event of a unit loop comes from the body applied to some listed unit.
theorem mem_forEachUnit {f : String → Run} {us : List String} {e : Event}
    (h : e ∈ (forEachUnit f us).1) : ∃ u ∈ us, e ∈ (f u).1 := by
  induction us with
  | nil => simp [forEachUnit] at h
  | cons u us ih =>
    rcases mem_andThen h with h1 | h2
    · exact ⟨u, by simp, h1⟩
    · rcases ih h2 with ⟨w, hw, he⟩
      exact ⟨w, by simp [hw], he⟩

-- The precondition check only performs the identity query and, possibly,
-- the helper command.
theorem mem_group_check {env : Env} {e : Event}
    (h : e ∈ (setInstallerAgentGroup env).1) :
    e = Event.idQuery ∨ ∃ c, e = Event.helperCommand c := by
  unfold setInstallerAgentGroup at h
  cases hq : env.idQueryRes with
  | error e' =>
    rw [hq] at h
    simp at h
    exact Or.inl h
  | ok out =>
    rw [hq] at h
    by_cases hc : strContains out "dd-agent"
    · simp [hc] at h
      exact Or.inl h
    · simp [hc] at h
      rcases h with h | h
      · exact Or.inl h
      · exact Or.inr ⟨_, h⟩

-- The two registry slices share no unit name.
theorem exp_not_stable : ∀ u ∈ experimentalUnits, u ∉ stableUnits := by decide

theorem stable_not_exp : ∀ u ∈ stableUnits, u ∉ experimentalUnits := by decide

-- Trace of a fully successful forward setup body.
theorem setupForward_success (env : Env)
    (hpre : (setInstallerAgentGroup env).2 = none)
    (hload : ∀ u, env.loadUnitRes u = none)
    (hreload : env.systemdReloadRes = none)
    (henable : ∀ u, env.enableUnitRes u = none)
    (hstart : ∀ u, env.startUnitRes u = none)
    (hsym : env.createAgentSymlinkRes = none)
    (hinfo : env.writeInstallInfoRes "installer_package" "manual_update" = none) :
    setupForward env =
      ((setInstallerAgentGroup env).1 ++ stableUnits.map Event.loadUnit ++
        experimentalUnits.map Event.loadUnit ++ [Event.systemdReload] ++
        stableUnits.map Event.enableUnit ++ stableUnits.map Event.startUnit ++
        [Event.createAgentSymlink,
          Event.writeInstallInfo "installer_package" "manual_update"], none) := by
  have hl := forEachUnit_allOk (loadUnitCall env) Event.loadUnit
  have he := forEachUnit_allOk (enableUnitCall env) Event.enableUnit
  have hs := forEachUnit_allOk (startUnitCall env) Event.startUnit
  rcases hp : setInstallerAgentGroup env with ⟨tr0, r0⟩
  rw [hp] at hpre
  simp only at hpre
  subst hpre
  unfold setupForward
  rw [hp]
  simp [andThen, hl _ (fun u _ => by simp [loadUnitCall, hload u]),
    he _ (fun u _ => by simp [enableUnitCall, henable u]),
    hs _ (fun u _ => by simp [startUnitCall, hstart u]), hreload, hsym, hinfo]

-- Classification of every event the forward setup body can emit.
theorem setup_forward_events {env : Env} {e : Event}
    (h : e ∈ (setupForward env).1) :
    e = Event.idQuery ∨ (∃ c, e = Event.helperCommand c) ∨
    (∃ w, e = Event.loadUnit w) ∨ e = Event.systemdReload ∨
    (∃ w ∈ stableUnits, e = Event.enableUnit w) ∨
    (∃ w ∈ stableUnits, e = Event.startUnit w) ∨
    e = Event.createAgentSymlink ∨ (∃ p q, e = Event.writeInstallInfo p q) := by
  unfold setupForward at h
  rcases mem_andThen h with h | h
  · rcases mem_group_check h with h | h
    · exact Or.inl h
    · exact Or.inr (Or.inl h)
  rcases mem_andThen h with h | h
  · rcases mem_forEachUnit h with ⟨w, _, hw⟩
    simp [loadUnitCall] at hw
    exact Or.inr (Or.inr (Or.inl ⟨w, hw⟩))
  rcases mem_andThen h with h | h
  · rcases mem_forEachUnit h with ⟨w, _, hw⟩
    simp [loadUnitCall] at hw
    exact Or.inr (Or.inr (Or.inl ⟨w, hw⟩))
  rcases mem_andThen h with h | h
  · simp at h
    exact Or.inr (Or.inr (Or.inr (Or.inl h)))
  rcases mem_andThen h with h | h
  · rcases mem_forEachUnit h with ⟨w, hws, hw⟩
    simp [enableUnitCall] at hw
    exact Or.inr (Or.inr (Or.inr (Or.inr (Or.inl ⟨w, hws, hw⟩))))
  rcases mem_andThen h with h | h
  · rcases mem_forEachUnit h with ⟨w, hws, hw⟩
    simp [startUnitCall] at hw
    exact Or.inr (Or.inr (Or.inr (Or.inr (Or.inr (Or.inl ⟨w, hws, hw⟩)))))
  rcases mem_andThen h with h | h
  · simp at h
    exact Or.inr (Or.inr (Or.inr (Or.inr (Or.inr (Or.inr (Or.inl h))))))
  · simp at h
    exact Or.inr (Or.inr (Or.inr (Or.inr (Or.inr (Or.inr (Or.inr ⟨_, _, h⟩))))))

-- Every event of a stop loop is a stop of one of the listed units.
theorem stop_loop_events {env : Env} {us : List String} {e : Event}
    (h : e ∈ (forEachUnit (stopUnitWrapped env) us).1) :
    ∃ w ∈ us, e = Event.stopUnit w := by
  rcases mem_forEachUnit h with ⟨w, hw, he⟩
  simp [stopUnitWrapped] at he
  exact ⟨w, hw, he⟩

-- Every event of a purge loop disables or removes one of the listed units.
theorem purge_loop_events {env : Env} {us : List String} {e : Event}
    (h : e ∈ (forEachUnit (purgeUnitCall env) us).1) :
    ∃ w ∈ us, e = Event.disableUnit w ∨ e = Event.removeUnit w := by
  rcases mem_forEachUnit h with ⟨w, hw, he⟩
  rcases mem_andThen he with h1 | h1 <;> simp at h1
  · exact ⟨w, hw, Or.inl h1⟩
  · exact ⟨w, hw, Or.inr h1⟩

-- Nothing after the first loop of `RemoveAgent` stops an experimental unit.
theorem remove_tail_no_exp_stop {env : Env} {e : Event}
    (h : e ∈ (removeAgentTail env).1) :
    ∀ v ∈ experimentalUnits, e ≠ Event.stopUnit v := by
  intro v hv
  unfold removeAgentTail at h
  rcases mem_andThen h with h | h
  · rcases stop_loop_events h with ⟨w, hw, he⟩
    subst he
    intro hc
    simp at hc
    exact stable_not_exp w hw (hc ▸ hv)
  rcases mem_andThen h with h | h
  · rcases purge_loop_events h with ⟨w, _, he | he⟩ <;> subst he <;> simp
  rcases mem_andThen h with h | h
  · rcases purge_loop_events h with ⟨w, _, he | he⟩ <;> subst he <;> simp
  rcases mem_andThen h with h | h
  · simp at h
    subst h
    simp
  · simp at h
    subst h
    simp

-- Positional split of a trace: with P holding on all of the first part and
-- Q on all of the second, an element refuting P sits after every element
-- refuting Q.
theorem split_indices {tr A B : List Event} (hsplit : tr = A ++ B)
    (P Q : Event → Prop)
    (hA : ∀ e ∈ A, P e) (hB : ∀ e ∈ B, Q e)
    {i j : ℕ} (hi : i < tr.length) (hj : j < tr.length)
    (hPi : ¬ P (tr.get ⟨i, hi⟩)) (hQj : ¬ Q (tr.get ⟨j, hj⟩)) : j < i := by
  subst hsplit
  have hAi : A.length ≤ i := by
    by_contra hlt
    push_neg at hlt
    have : (A ++ B).get ⟨i, hi⟩ = A.get ⟨i, hlt⟩ := by
      simp [List.get_eq_getElem]
      exact List.getElem_append_left hlt
    exact hPi (this ▸ hA _ (A.get_mem _ _))
  have hBj : j < A.length := by
    by_contra hge
    push_neg at hge
    have hjB : j - A.length < B.length := by
      have := List.length_append A B
      omega
    have : (A ++ B).get ⟨j, hj⟩ = B.get ⟨j - A.length, hjB⟩ := by
      simp [List.get_eq_getElem]
      exact List.getElem_append_right hge
    exact hQj (this ▸ hB _ (B.get_mem _ _))
  omega

-- Appending a prefix preserves the wrapped-failure description, which only
-- inspects the last event.
theorem failsAsWrapped_append {env : Env} {e : String} (A : List Event) {B : List Event}
    (hB : B ≠ []) (h : FailsAsWrapped env e B) : FailsAsWrapped env e (A ++ B) := by
  unfold FailsAsWrapped at h ⊢
  rw [List.getLast?_append_of_ne_nil A hB]
  exact h

theorem runWrapOk_andThen {env : Env} {a : Run} {b : Unit → Run}
    (ha : RunWrapOk env a) (hb : RunWrapOk env (b ())) :
    RunWrapOk env (andThen a b) := by
  rcases a with ⟨tr, r⟩
  cases r with
  | some err =>
    intro e he
    exact ha e he
  | none =>
    intro e he
    simp only [andThen] at he ⊢
    obtain ⟨hne, hw⟩ := hb e he
    refine ⟨fun hcon => hne (List.append_eq_nil.mp hcon).2, ?_⟩
    exact failsAsWrapped_append tr hne hw

theorem runWrapOk_stop (env : Env) (u : String) :
    RunWrapOk env (stopUnitWrapped env u) := by
  intro e he
  simp only [stopUnitWrapped] at he ⊢
  rcases h0 : env.stopUnitRes u with _ | e0
  · rw [h0] at he
    simp at he
  · rw [h0] at he
    simp at he
    unfold FailsAsWrapped
    exact ⟨by simp, Or.inl ⟨u, e0, by simp, h0, he.symm⟩⟩

theorem runWrapOk_disable (env : Env) (u : String) :
    RunWrapOk env ([Event.disableUnit u],
      (env.disableUnitRes u).map (fun e => s!"Failed to disable {u}: {e}")) := by
  intro e he
  simp only at he
  rcases h0 : env.disableUnitRes u with _ | e0
  · rw [h0] at he
    simp at he
  · rw [h0] at he
    simp at he
    unfold FailsAsWrapped
    exact ⟨by simp, Or.inr (Or.inl ⟨u, e0, by simp, h0, he.symm⟩)⟩

theorem runWrapOk_removeCall (env : Env) (u : String) :
    RunWrapOk env ([Event.removeUnit u],
      (env.removeUnitRes u).map (fun e => s!"Failed to remove {u}: {e}")) := by
  intro e he
  simp only at he
  rcases h0 : env.removeUnitRes u with _ | e0
  · rw [h0] at he
    simp at he
  · rw [h0] at he
    simp at he
    unfold FailsAsWrapped
    exact ⟨by simp, Or.inr (Or.inr (Or.inl ⟨u, e0, by simp, h0, he.symm⟩))⟩

theorem runWrapOk_symlink (env : Env) :
    RunWrapOk env ([Event.rmAgentSymlink],
      (env.rmAgentSymlinkRes).map (fun e => s!"Failed to remove agent symlink: {e}")) := by
  intro e he
  simp only at he
  rcases h0 : env.rmAgentSymlinkRes with _ | e0
  · rw [h0] at he
    simp at he
  · rw [h0] at he
    simp at he
    unfold FailsAsWrapped
    exact ⟨by simp, Or.inr (Or.inr (Or.inr ⟨e0, by simp, h0, he.symm⟩))⟩

theorem runWrapOk_purge (env : Env) (u : String) :
    RunWrapOk env (purgeUnitCall env u) := by
  unfold purgeUnitCall
  exact runWrapOk_andThen (runWrapOk_disable env u) (runWrapOk_removeCall env u)

theorem runWrapOk_forEach {env : Env} {f : String → Run}
    (hf : ∀ u, RunWrapOk env (f u)) : ∀ us, RunWrapOk env (forEachUnit f us) := by
  intro us
  induction us with
  | nil =>
    intro e he
    simp [forEachUnit] at he
  | cons u us ih => exact runWrapOk_andThen (hf u) ih

-- Any error `RemoveAgent` returns wraps its last call.
theorem runWrapOk_remove_agent (env : Env) : RunWrapOk env (RemoveAgent env) := by
  unfold RemoveAgent removeAgentTail
  exact runWrapOk_andThen (runWrapOk_forEach (runWrapOk_stop env) experimentalUnits)
    (runWrapOk_andThen (runWrapOk_forEach (runWrapOk_stop env) stableUnits)
      (runWrapOk_andThen (runWrapOk_forEach (runWrapOk_purge env) experimentalUnits)
        (runWrapOk_andThen (runWrapOk_forEach (runWrapOk_purge env) stableUnits)
          (runWrapOk_andThen (runWrapOk_symlink env) (fun e he => by simp at he)))))

theorem stop_loop_allOk (env : Env) (us : List String)
    (h : ∀ u ∈ us, env.stopUnitRes u = none) :
    forEachUnit (stopUnitWrapped env) us = (us.map Event.stopUnit, none) :=
  forEachUnit_allOk _ _ us (fun u hu => by simp [stopUnitWrapped, h u hu])

theorem purge_loop_allOk (env : Env) : ∀ us : List String,
    (∀ u ∈ us, env.disableUnitRes u = none ∧ env.removeUnitRes u = none) →
    forEachUnit (purgeUnitCall env) us = (purgeEvents us, none) := by
  intro us
  induction us with
  | nil => intro _; rfl
  | cons u us ih =>
    intro h
    have hu := h u (by simp)
    have hrest := ih (fun w hw => h w (by simp [hw]))
    simp [forEachUnit, purgeUnitCall, andThen, hu.1, hu.2, hrest, purgeEvents]

/-! ## The claims -/

/-- C1: the spec states that the error `SetupAgent` returns after a failed
step is the original step failure and that a rollback failure never masks
it.  The code instead executes `err = RemoveAgent(ctx)` in the deferred
function, so the caller receives the rollback's result: here the
precondition fails with `helper failed`, the rollback's first `stopUnit`
fails, and the returned error is the wrapped rollback failure instead of
the original one. -/
theorem setup_error_masked_by_rollback :
    (setupForward envMaskedRollback).2 = some "helper failed" ∧
    (SetupAgent envMaskedRollback).2 =
      some "Failed to stop datadog-agent-exp.service: stop failed" ∧
    (SetupAgent envMaskedRollback).2 ≠ some "helper failed" := by
  refine ⟨by decide, by decide, by decide⟩

/-- C2: when a step of `SetupAgent` fails and the rollback call to
`RemoveAgent` returns `nil`, `SetupAgent` returns `nil` — the caller
observes success although setup failed and was rolled back. -/
theorem setup_nil_on_successful_rollback (env : Env) (e : String)
    (hfail : (setupForward env).2 = some e)
    (hrb : (RemoveAgent env).2 = none) :
    (SetupAgent env).2 = none := by
  unfold SetupAgent
  rcases h : setupForward env with ⟨tr, r⟩
  rw [h] at hfail
  simp at hfail
  subst hfail
  simp [hrb]

/-- Witness for C2: the identity query errors, every rollback call
succeeds, and `SetupAgent` returns `nil`. -/
theorem setup_nil_on_successful_rollback_witness :
    (setupForward envQueryError).2 = some "id: command failed" ∧
    (RemoveAgent envQueryError).2 = none ∧
    (SetupAgent envQueryError).2 = none :=
  ⟨by decide, by decide,
    setup_nil_on_successful_rollback envQueryError "id: command failed"
      (by decide) (by decide)⟩

/-- C3: when every external call succeeds, `SetupAgent` performs exactly
the group-precondition check, `loadUnit` on every stable then every
experimental unit in registry order, one `systemdReload`, `enableUnit`
then `startUnit` on every stable unit in registry order,
`createAgentSymlink`, and `WriteInstallInfo` with the fixed tags, and
returns `nil`. -/
theorem setup_success_sequence (env : Env)
    (hpre : (setInstallerAgentGroup env).2 = none)
    (hload : ∀ u, env.loadUnitRes u = none)
    (hreload : env.systemdReloadRes = none)
    (henable : ∀ u, env.enableUnitRes u = none)
    (hstart : ∀ u, env.startUnitRes u = none)
    (hsym : env.createAgentSymlinkRes = none)
    (hinfo : env.writeInstallInfoRes "installer_package" "manual_update" = none) :
    SetupAgent env =
      ((setInstallerAgentGroup env).1 ++ stableUnits.map Event.loadUnit ++
        experimentalUnits.map Event.loadUnit ++ [Event.systemdReload] ++
        stableUnits.map Event.enableUnit ++ stableUnits.map Event.startUnit ++
        [Event.createAgentSymlink,
          Event.writeInstallInfo "installer_package" "manual_update"], none) := by
  have h := setupForward_success env hpre hload hreload henable hstart hsym hinfo
  unfold SetupAgent
  rw [h]

/-- Witness for C3 at the environment where every call succeeds. -/
theorem setup_success_sequence_witness :
    SetupAgent envAllOk =
      ([Event.idQuery] ++ stableUnits.map Event.loadUnit ++
        experimentalUnits.map Event.loadUnit ++ [Event.systemdReload] ++
        stableUnits.map Event.enableUnit ++ stableUnits.map Event.startUnit ++
        [Event.createAgentSymlink,
          Event.writeInstallInfo "installer_package" "manual_update"], none) := by
  have h := setup_success_sequence envAllOk (by decide) (fun _ => rfl) rfl
    (fun _ => rfl) (fun _ => rfl) rfl rfl
  simpa using h

/-- C4 counterexample: the group query output lacks `dd-agent` and the
helper command fails, yet `SetupAgent` does make a unit operation before
returning — the deferred rollback stops the experimental units, so
`stopUnit` appears in the trace, contradicting "zero unit operations
performed". -/
theorem setup_precondition_failure_counterexample :
    strContains "dd-installer" "dd-agent" = false ∧
    envGroupHelperFails.idQueryRes = .ok "dd-installer" ∧
    envGroupHelperFails.helperCommandRes addInstallerToAgentGroup = some "helper failed" ∧
    Event.stopUnit agentExp ∈ (SetupAgent envGroupHelperFails).1 := by
  refine ⟨by decide, rfl, rfl, by decide⟩

/-- C4 as amended: when the group query output lacks the target group and
the helper command fails, the forward body of `SetupAgent` returns
immediately with zero unit operations performed — its trace is exactly the
query and one helper invocation — and everything `SetupAgent` adds after
that comes from the rollback call to `RemoveAgent`. -/
theorem setup_precondition_failure_forward (env : Env) (out e : String)
    (hq : env.idQueryRes = .ok out)
    (hout : strContains out "dd-agent" = false)
    (hh : env.helperCommandRes addInstallerToAgentGroup = some e) :
    setupForward env =
      ([Event.idQuery, Event.helperCommand addInstallerToAgentGroup], some e) ∧
    SetupAgent env =
      ([Event.idQuery, Event.helperCommand addInstallerToAgentGroup] ++
        (RemoveAgent env).1, (RemoveAgent env).2) := by
  have h1 : setupForward env =
      ([Event.idQuery, Event.helperCommand addInstallerToAgentGroup], some e) := by
    unfold setupForward
    simp [setInstallerAgentGroup, hq, hout, hh, andThen]
  refine ⟨h1, ?_⟩
  unfold SetupAgent
  rw [h1]

/-- Witness for the amended C4. -/
theorem setup_precondition_failure_forward_witness :
    setupForward envGroupHelperFails =
      ([Event.idQuery, Event.helperCommand addInstallerToAgentGroup],
        some "helper failed") ∧
    SetupAgent envGroupHelperFails =
      ([Event.idQuery, Event.helperCommand addInstallerToAgentGroup] ++
        (RemoveAgent envGroupHelperFails).1, (RemoveAgent envGroupHelperFails).2) :=
  setup_precondition_failure_forward envGroupHelperFails "dd-installer"
    "helper failed" rfl (by decide) rfl

/-- C5: in every execution of `RemoveAgent` — whatever calls fail — every
`stopUnit` of an experimental unit precedes every `stopUnit` of a stable
unit in the call trace. -/
theorem remove_stops_experimental_before_stable (env : Env) (i j : ℕ) (u v : String)
    (hi : i < (RemoveAgent env).1.length) (hj : j < (RemoveAgent env).1.length)
    (hiu : (RemoveAgent env).1.get ⟨i, hi⟩ = Event.stopUnit u) (hus : u ∈ stableUnits)
    (hjv : (RemoveAgent env).1.get ⟨j, hj⟩ = Event.stopUnit v) (hve : v ∈ experimentalUnits) :
    j < i := by
  rcases hA : forEachUnit (stopUnitWrapped env) experimentalUnits with ⟨A, rA⟩
  have hAev : ∀ e ∈ A, ∃ w ∈ experimentalUnits, e = Event.stopUnit w := by
    intro e he
    exact @stop_loop_events env experimentalUnits e (by rw [hA]; exact he)
  have hP : ∀ e ∈ A, ∀ w ∈ stableUnits, e ≠ Event.stopUnit w := by
    intro e he w hw hc
    rcases hAev e he with ⟨w', hw', he'⟩
    rw [hc] at he'
    simp at he'
    exact stable_not_exp w hw (he' ▸ hw')
  cases rA with
  | some err =>
    have hsplit : (RemoveAgent env).1 = A ++ [] := by
      unfold RemoveAgent
      rw [hA]
      simp [andThen]
    refine split_indices hsplit
      (fun e => ∀ w ∈ stableUnits, e ≠ Event.stopUnit w)
      (fun e => ∀ w ∈ experimentalUnits, e ≠ Event.stopUnit w)
      hP (by simp) hi hj ?_ ?_
    · intro hcon
      exact hcon u hus hiu
    · intro hcon
      exact hcon v hve hjv
  | none =>
    have hsplit : (RemoveAgent env).1 = A ++ (removeAgentTail env).1 := by
      unfold RemoveAgent
      rw [hA]
      simp [andThen]
    refine split_indices hsplit
      (fun e => ∀ w ∈ stableUnits, e ≠ Event.stopUnit w)
      (fun e => ∀ w ∈ experimentalUnits, e ≠ Event.stopUnit w)
      hP (fun e he => remove_tail_no_exp_stop he) hi hj ?_ ?_
    · intro hcon
      exact hcon u hus hiu
    · intro hcon
      exact hcon v hve hjv

/-- Witness for C5: in the all-success run, the stop of the stable main
unit (position 5) comes after the stop of the experimental main unit
(position 0). -/
theorem remove_stops_experimental_before_stable_witness :
    agentUnit ∈ stableUnits ∧ agentExp ∈ experimentalUnits ∧
    (RemoveAgent envAllOk).1.get ⟨5, by decide⟩ = Event.stopUnit agentUnit ∧
    (RemoveAgent envAllOk).1.get ⟨0, by decide⟩ = Event.stopUnit agentExp ∧
    (0 : ℕ) < 5 :=
  ⟨by decide, by decide, by decide, by decide,
    remove_stops_experimental_before_stable envAllOk 5 0 agentUnit agentExp
      (by decide) (by decide) (by decide) (by decide) (by decide) (by decide)⟩

/-- C6: `RemoveAgent` is fail-fast — on full success its trace is the
complete teardown ending with the install-info removal and it returns
`nil`; and whenever it returns an error, that error wraps the offending
unit name and action (stop, disable, remove, or symlink removal) of the
last call made, after which no further step ran. -/
theorem remove_agent_contract (env : Env) :
    (RemoveAllOk env → RemoveAgent env = (fullRemoveTrace, none)) ∧
    (∀ e, (RemoveAgent env).2 = some e →
      FailsAsWrapped env e (RemoveAgent env).1) := by
  constructor
  · intro h
    obtain ⟨h1, h2, h3, h4, h5⟩ := h
    unfold RemoveAgent removeAgentTail
    rw [stop_loop_allOk env experimentalUnits h1]
    simp [andThen, stop_loop_allOk env stableUnits h2,
      purge_loop_allOk env experimentalUnits h3,
      purge_loop_allOk env stableUnits h4, h5, fullRemoveTrace]
  · intro e he
    exact (runWrapOk_remove_agent env e he).2

/-- Witness for C6: the all-success environment yields the full trace and
`nil`; an environment whose trace-agent experimental stop fails yields the
wrapped error naming that unit and the stop action. -/
theorem remove_agent_contract_witness :
    RemoveAgent envAllOk = (fullRemoveTrace, none) ∧
    (RemoveAgent envStopTraceExpFails).2 =
      some "Failed to stop datadog-agent-trace-exp.service: job canceled" ∧
    FailsAsWrapped envStopTraceExpFails
      "Failed to stop datadog-agent-trace-exp.service: job canceled"
      (RemoveAgent envStopTraceExpFails).1 :=
  ⟨(remove_agent_contract envAllOk).1 (by decide), by decide,
    (remove_agent_contract envStopTraceExpFails).2 _ (by decide)⟩

/-- C7: the precondition check queries the installer identity's groups;
when the output contains the target group it succeeds with no helper
invocation, otherwise it invokes the helper command exactly once and
returns that command's error unmodified. -/
theorem group_check_spec (env : Env) (out : String)
    (hq : env.idQueryRes = .ok out) :
    (strContains out "dd-agent" = true →
      setInstallerAgentGroup env = ([Event.idQuery], none)) ∧
    (strContains out "dd-agent" = false →
      setInstallerAgentGroup env =
        ([Event.idQuery, Event.helperCommand addInstallerToAgentGroup],
          env.helperCommandRes addInstallerToAgentGroup)) := by
  constructor <;> intro h <;> simp [setInstallerAgentGroup, hq, h]

/-- Witness for C7, covering both branches at concrete environments. -/
theorem group_check_spec_witness :
    (strContains "dd-installer dd-agent" "dd-agent" = true ∧
      setInstallerAgentGroup envGroupPresent = ([Event.idQuery], none)) ∧
    (strContains "dd-installer" "dd-agent" = false ∧
      setInstallerAgentGroup envGroupHelperFails =
        ([Event.idQuery, Event.helperCommand addInstallerToAgentGroup],
          some "helper failed")) :=
  ⟨⟨by decide, (group_check_spec envGroupPresent "dd-installer dd-agent" rfl).1 (by decide)⟩,
   ⟨by decide, by
      have h := (group_check_spec envGroupHelperFails "dd-installer" rfl).2 (by decide)
      simpa using h⟩⟩

/-- C8: the forward sequence of `SetupAgent` never calls `enableUnit` or
`startUnit` on an experimental unit; among unit operations, experimental
units are only ever passed to `loadUnit` (never stop/disable/remove
either). -/
theorem setup_never_enables_or_starts_experimental (env : Env) (u : String)
    (hu : u ∈ experimentalUnits) :
    ∀ e ∈ (setupForward env).1,
      e ≠ Event.enableUnit u ∧ e ≠ Event.startUnit u ∧ e ≠ Event.stopUnit u ∧
      e ≠ Event.disableUnit u ∧ e ≠ Event.removeUnit u := by
  intro e he
  have hns := exp_not_stable u hu
  rcases setup_forward_events he with h | ⟨c, h⟩ | ⟨w, h⟩ | h | ⟨w, hws, h⟩ | ⟨w, hws, h⟩ | h | ⟨p, q, h⟩ <;>
    subst h <;>
    refine ⟨?_, ?_, ?_, ?_, ?_⟩ <;>
    intro hcontra <;>
    simp at hcontra
  · exact hns (hcontra ▸ hws)
  · exact hns (hcontra ▸ hws)

/-- Witness for C8 on the main experimental unit and its load event. -/
theorem setup_never_enables_or_starts_experimental_witness :
    agentExp ∈ experimentalUnits ∧
    Event.loadUnit agentExp ∈ (setupForward envAllOk).1 ∧
    (Event.loadUnit agentExp ≠ Event.enableUnit agentExp ∧
      Event.loadUnit agentExp ≠ Event.startUnit agentExp ∧
      Event.loadUnit agentExp ≠ Event.stopUnit agentExp ∧
      Event.loadUnit agentExp ≠ Event.disableUnit agentExp ∧
      Event.loadUnit agentExp ≠ Event.removeUnit agentExp) :=
  ⟨by decide, by decide,
    setup_never_enables_or_starts_experimental envAllOk agentExp (by decide)
      (Event.loadUnit agentExp) (by decide)⟩

/-- C9: `StartAgentExperiment` performs exactly one `startUnit` call, on
the experimental main-agent unit, and `StopAgentExperiment` performs
exactly one `startUnit` call, on the stable main-agent unit; each returns
that call's error unmodified. -/
theorem experiment_controller_single_start (env : Env) :
    StartAgentExperiment env = ([Event.startUnit agentExp], env.startUnitRes agentExp) ∧
    StopAgentExperiment env = ([Event.startUnit agentUnit], env.startUnitRes agentUnit) :=
  ⟨rfl, rfl⟩

/-- C10: the registry's two slices have equal length, enumerate the
subcomponents main, trace, process, system-probe, security in the same
order with exactly one unit each, and at every position the experimental
name is the experimental counterpart of the stable name. -/
theorem unit_registry_isomorphic :
    stableUnits.length = experimentalUnits.length ∧
    stableUnits.map subcomponentOf =
      [some .main, some .trace, some .process, some .systemProbe, some .security] ∧
    experimentalUnits.map subcomponentOf =
      [some .main, some .trace, some .process, some .systemProbe, some .security] ∧
    (stableUnits.zip experimentalUnits).all (fun p => isExpCounterpart p.1 p.2) = true := by
  refine ⟨rfl, by decide, by decide, by decide⟩

end DatadogAgentService
